import Mathlib

/-!
Verification of the heelhook Python binding and perf-report utility.

Shallow embedding of:
* `src/python/heelhook.py` — the `CloseCode` and `LogLevel` constant classes;
* `src/python/examples/echoserver.py` — the handler surface and the keyword
  arguments passed at `Server` construction and to `heelhook.set_opts`;
* `src/perf_doc/reportcompare.py` — the argv check and the sorting of the
  per-test comparison lines;
* the WebSocket engine components that the binding exposes but whose code is
  not part of the Python material (Resource Limiter, Message Assembler,
  sub-protocol negotiation, Connection State Machine): these are modelled
  from the specification text, as marked on each definition.
-/

namespace Heelhook

/-! ## CloseCode — from `src/python/heelhook.py`, class `CloseCode` -/

namespace CloseCode

def NORMAL : Nat := 1000
def GOING_AWAY : Nat := 1001
def PROTOCOL : Nat := 1002
def BAD_DATA_TYPE : Nat := 1003
def BAD_DATA : Nat := 1007
def POLICY_VIOLATION : Nat := 1008
def LARGE_MESSAGE : Nat := 1009
def CLIENT_NEEDS_EXTENSION : Nat := 1010
def UNEXPECTED_CONDITION : Nat := 1011

/-- The values of all members of the `CloseCode` class, in source order. -/
def values : List Nat :=
  [NORMAL, GOING_AWAY, PROTOCOL, BAD_DATA_TYPE, BAD_DATA,
   POLICY_VIOLATION, LARGE_MESSAGE, CLIENT_NEEDS_EXTENSION,
   UNEXPECTED_CONDITION]

end CloseCode

/-! ## LogLevel — from `src/python/heelhook.py`, class `LogLevel` -/

namespace LogLevel

def DEBUG_4 : Nat := 0
def DEBUG_3 : Nat := 1
def DEBUG_2 : Nat := 2
def DEBUG_1 : Nat := 3
def DEBUG_0 : Nat := 4
def INFO : Nat := 5
def NOTICE : Nat := 6
def WARNING : Nat := 7
def ERROR : Nat := 8

/-- The values of all members of the `LogLevel` class, from most verbose to
most severe, in source order. -/
def values : List Nat :=
  [DEBUG_4, DEBUG_3, DEBUG_2, DEBUG_1, DEBUG_0, INFO, NOTICE, WARNING, ERROR]

end LogLevel

/-! ## Error taxonomy and its close codes -/

/-- The error taxonomy of the engine (spec §7). -/
inductive EngineError where
  | HandshakeError
  | FrameError
  | InvalidTextPayload
  | ResourceLimitExceeded
  | ConnectionClosed
deriving DecidableEq

/-- Modelled from the spec: §7 assigns a wire close code to the error
conditions that trigger a connection-scoped close (`FrameError` → 1002,
`InvalidTextPayload` → 1007, `ResourceLimitExceeded` → 1009); a
`HandshakeError` aborts pre-Open with no close handshake and
`ConnectionClosed` is returned to the caller, so neither designates a code.
The engine code carrying this mapping is not in the Python material. -/
def closeCodeFor : EngineError → Option Nat
  | .FrameError => some 1002
  | .InvalidTextPayload => some 1007
  | .ResourceLimitExceeded => some 1009
  | .HandshakeError => none
  | .ConnectionClosed => none

/-! ## Handler surface — from `src/python/examples/echoserver.py`,
class `EchoConnection` -/

/-- A Python method signature: name and parameter list (excluding `self`). -/
structure PyMethod where
  name : String
  params : List String
deriving DecidableEq

/-- The lifecycle methods defined by `EchoConnection`, in source order, with
their parameter lists (excluding `self`): `on_connect(self)`,
`on_message(self, msg, is_text)`, `on_close(self, code, reason)`. -/
def echoConnectionMethods : List PyMethod :=
  [⟨"on_connect", []⟩,
   ⟨"on_message", ["msg", "is_text"]⟩,
   ⟨"on_close", ["code", "reason"]⟩]

/-- The accessor methods `on_connect` calls on `self` to obtain the
handshake information: `self.get_resource()`, `self.get_sub_protocols()`,
`self.get_headers()`. -/
def onConnectAccessorCalls : List String :=
  ["get_resource", "get_sub_protocols", "get_headers"]

/-- The send call made in `on_message`: `self.send(msg, is_text)`. -/
def sendCall : PyMethod := ⟨"send", ["msg", "is_text"]⟩

/-! ## Configuration surface — from `src/python/examples/echoserver.py`,
`__main__` block and module level -/

/-- The keyword arguments passed to the `Server` constructor in the
`__main__` block of `echoserver.py`. -/
def serverConstructorKwargs : List String :=
  ["port", "connection_class", "write_max_frame_size",
   "read_max_msg_size", "read_max_num_frames"]

/-- The keyword arguments passed to the module-level call
`heelhook.set_opts(log_to_stdout=True, loglevel=LogLevel.DEBUG_4)`. -/
def setOptsKwargs : List String := ["log_to_stdout", "loglevel"]

/-! ## Resource Limiter and Message Assembler — modelled from the spec
(§3 invariant, §4.1, §4.4); the engine code is not in the Python material. -/

/-- Modelled from the spec: §3 — the per-connection resource ceilings
`{max_frame_size, max_message_size, max_frames_per_message}`, immutable
after construction. -/
structure Limits where
  max_frame_size : Nat
  max_message_size : Nat
  max_frames_per_message : Nat

/-- Outcome of the message check of the Resource Limiter (spec §4.1). -/
inductive MsgCheck where
  | ok
  | MessageTooLarge
  | TooManyFrames
deriving DecidableEq

/-- Modelled from the spec: §4.1 —
`check_message(accumulated_size, frame_count) -> ok|MessageTooLarge|TooManyFrames`;
a message is rejected when its accumulated size would exceed
`max_message_size` or its frame count would exceed `max_frames_per_message`
(§3 invariant: "exceed", so equality is within the limit). -/
def check_message (L : Limits) (accumulated_size frame_count : Nat) : MsgCheck :=
  if L.max_message_size < accumulated_size then .MessageTooLarge
  else if L.max_frames_per_message < frame_count then .TooManyFrames
  else .ok

/-- Modelled from the spec: §4.1 — `check_frame(size) -> ok|TooLarge`; a
single frame is rejected when its payload exceeds `max_frame_size`. -/
def check_frame (L : Limits) (size : Nat) : Bool :=
  decide (size ≤ L.max_frame_size)

/-- The in-progress state of the Message Assembler (spec §4.4): accumulated
payload bytes and the frame count of the pending message. -/
structure AsmState where
  accum : List Nat
  frames : Nat

/-- Modelled from the spec: §4.4 — appending one data frame to the pending
message. The limit checks of §4.1 run on the would-be accumulated size and
frame count before the content is appended; on violation the Assembler
signals `ResourceLimitExceeded` and the pending content is discarded rather
than truncated, so a success always carries the whole payload appended. -/
def asmAppend (L : Limits) (s : AsmState) (payload : List Nat) :
    Except EngineError AsmState :=
  if check_frame L payload.length = false then
    .error .ResourceLimitExceeded
  else
    match check_message L (s.accum.length + payload.length) (s.frames + 1) with
    | .ok => .ok ⟨s.accum ++ payload, s.frames + 1⟩
    | _ => .error .ResourceLimitExceeded

/-! ## Sub-protocol negotiation — modelled from the spec (§4.2); the
handshake-parser code is not in the Python material. -/

/-- Modelled from the spec: §4.2 — the negotiated sub-protocol is the first
entry of the requested-sub-protocol list of the client that the acceptance
policy of the collaborator approves; `none` is valid and means no
sub-protocol. -/
def negotiate (requested : List String) (policy : String → Bool) :
    Option String :=
  match requested with
  | [] => none
  | p :: rest => if policy p then some p else negotiate rest policy

/-- Modelled from the spec: §4.2 — the accept response carries a negotiated
sub-protocol header exactly when negotiation produced a sub-protocol. -/
def acceptProtocolHeader : Option String → Option String
  | some p => some ("Sec-WebSocket-Protocol: " ++ p)
  | none => none

/-! ## Connection State Machine — modelled from the spec (§4.5, §5, §7);
the engine code is not in the Python material. -/

/-- The lifecycle tag of one connection (spec §3, §4.5): transitions are
one-way, `Connecting → Open → Closing → Closed`. -/
inductive ConnState where
  | Connecting
  | Open
  | Closing
  | Closed
deriving DecidableEq

/-- Inputs driving the Connection State Machine (spec §4.5): handshake
outcome, a complete data message, a ping, a peer close frame with code and
reason, a local close request, completion of the outbound close-frame
write, expiry of the bounded `Closing` wait, and transport loss. -/
inductive ConnInput where
  | handshakeOk
  | handshakeErr
  | dataMessage
  | ping
  | closeFrame (code : Nat) (reason : String)
  | localClose (code : Nat) (reason : String)
  | closeSent
  | timeout
  | transportDrop
deriving DecidableEq

/-- Events the machine delivers to the collaborator (spec §4.5, §7). -/
inductive ConnEvent where
  | connectEvent
  | messageEvent
  | pongSent
  | closeEvent (code : Nat) (reason : String)
deriving DecidableEq

/-- Full machine state: the lifecycle tag plus the close frame received
from the peer, if any, kept so the final close event can carry its code and
reason (spec §4.5 bookkeeping). -/
structure MachineState where
  tag : ConnState
  peerClose : Option (Nat × String)
deriving DecidableEq

/-- The initial state of a fresh connection. -/
def initMachine : MachineState := ⟨.Connecting, none⟩

/-- Modelled from the spec: §4.5 and §5 — one step of the Connection State
Machine, returning the successor state and the events delivered to the
collaborator. `Connecting` accepts only the handshake outcome (success
emits the connect event; failure or transport loss aborts straight to
`Closed`); `Open` delivers messages, echoes pings with a pong, and moves to
`Closing` on a peer close frame or a local close request; `Closing` waits
for the peer close frame (if not already received) or the bounded timeout;
the close event fires exactly on the transition into `Closed`, with code
1006 when the transport dropped or the wait expired without a peer close
frame; `Closed` is terminal and absorbs everything. -/
def step (s : MachineState) (i : ConnInput) : MachineState × List ConnEvent :=
  match s.tag, i with
  | .Connecting, .handshakeOk => (⟨.Open, s.peerClose⟩, [.connectEvent])
  | .Connecting, .handshakeErr => (⟨.Closed, s.peerClose⟩, [.closeEvent 1006 ""])
  | .Connecting, .transportDrop => (⟨.Closed, s.peerClose⟩, [.closeEvent 1006 ""])
  | .Connecting, _ => (s, [])
  | .Open, .dataMessage => (s, [.messageEvent])
  | .Open, .ping => (s, [.pongSent])
  | .Open, .closeFrame c r => (⟨.Closing, some (c, r)⟩, [])
  | .Open, .localClose _ _ => (⟨.Closing, s.peerClose⟩, [])
  | .Open, .transportDrop => (⟨.Closed, s.peerClose⟩, [.closeEvent 1006 ""])
  | .Open, _ => (s, [])
  | .Closing, .closeFrame c r =>
      (⟨.Closed, some (c, r)⟩, [.closeEvent c r])
  | .Closing, .closeSent =>
      match s.peerClose with
      | some (c, r) => (⟨.Closed, s.peerClose⟩, [.closeEvent c r])
      | none => (s, [])
  | .Closing, .timeout =>
      (⟨.Closed, s.peerClose⟩,
        [match s.peerClose with
         | some (c, r) => .closeEvent c r
         | none => .closeEvent 1006 ""])
  | .Closing, .transportDrop =>
      (⟨.Closed, s.peerClose⟩,
        [match s.peerClose with
         | some (c, r) => .closeEvent c r
         | none => .closeEvent 1006 ""])
  | .Closing, _ => (s, [])
  | .Closed, _ => (s, [])

/-- Running the machine over a list of inputs, accumulating the events. -/
def run (s : MachineState) : List ConnInput → MachineState × List ConnEvent
  | [] => (s, [])
  | i :: rest =>
      let (s1, evs) := step s i
      let (s2, evs2) := run s1 rest
      (s2, evs ++ evs2)

/-- Whether an event is a close event. -/
def isCloseEvent : ConnEvent → Bool
  | .closeEvent _ _ => true
  | _ => false

/-- Sending on a connection (spec §4.5): permitted only in `Open`, fails
with `ConnectionClosed` in every other state. Modelled from the spec: §4.5
send path. -/
def trySend (s : MachineState) : Except EngineError Unit :=
  match s.tag with
  | .Open => .ok ()
  | _ => .error .ConnectionClosed

/-! ## Report comparison — from `src/perf_doc/reportcompare.py`,
module level -/

/-- The two durations recorded for one test file: `d1` from the first
report, `d2` from the second (`durations[0]` and `durations[1]`). -/
structure TestDurations where
  test : String
  d1 : Int
  d2 : Int

/-- The text of one comparison line, from the three-way branch on
`durations[0]` vs `durations[1]`. Colour escapes, fixed-width padding and
the ratio suffix of the source formatting are abstracted to the plain
fields; the branch structure and the printed numbers are kept. -/
def lineText (t : TestDurations) : String :=
  if t.d1 < t.d2 then
    t.test ++ ": " ++ toString t.d1 ++ " " ++ toString t.d2 ++
      " -" ++ toString (t.d2 - t.d1)
  else if t.d2 < t.d1 then
    t.test ++ ": " ++ toString t.d1 ++ " " ++ toString t.d2 ++
      " +" ++ toString (t.d1 - t.d2)
  else
    t.test ++ ": " ++ toString t.d1 ++ " " ++ toString t.d2 ++ " ~"

/-- The `lines` list before sorting: for each test, the pair of
`abs(durations[1] - durations[0])` and the rendered line. -/
def mkLines (ts : List TestDurations) : List (Nat × String) :=
  ts.map (fun t => ((t.d2 - t.d1).natAbs, lineText t))

/-- The comparison used by `lines.sort(cmp=lambda x,y: cmp(x[0], y[0]))`:
order by the first component. -/
def byKey (a b : Nat × String) : Prop := a.1 ≤ b.1

instance : DecidableRel byKey := fun a b => Nat.decLe a.1 b.1

instance : IsTotal (Nat × String) byKey := ⟨fun a b => Nat.le_total a.1 b.1⟩

instance : IsTrans (Nat × String) byKey := ⟨fun _ _ _ h1 h2 => Nat.le_trans h1 h2⟩

/-- The printed order: `lines` stably sorted by the absolute duration
difference, as `lines.sort(cmp=lambda x,y: cmp(x[0], y[0]))` does. -/
def sortedLines (ts : List TestDurations) : List (Nat × String) :=
  List.insertionSort byKey (mkLines ts)

/-- The observable effects of a run of `reportcompare.py` up to its first
file access. -/
structure ScriptRun where
  exitStatus : Option Nat
  printed : List String
  filesOpened : List String
deriving DecidableEq

/-- The usage line: `"usage:", sys.argv[0], "<report1.json> <report2.json>"`. -/
def usageLine (argv : List String) : String :=
  "usage: " ++ argv.headD "" ++ " <report1.json> <report2.json>"

/-- The entry of `reportcompare.py`: `if len(sys.argv) != 3`, print the
usage line and exit with status 1 before any file is opened; otherwise
proceed to `get_json(sys.argv[1])` and `get_json(sys.argv[2])` (the
per-test report files opened later inside `parse_report` are beyond this
prefix of the script and are not modelled). -/
def reportcompareEntry (argv : List String) : ScriptRun :=
  if argv.length ≠ 3 then
    ⟨some 1, [usageLine argv], []⟩
  else
    ⟨none, [], [argv.getD 1 "", argv.getD 2 ""]⟩

end Heelhook

namespace Heelhook

/-! ## Theorems -/

/-- Claim C1: the error taxonomy maps to the fixed close-code constants the
binding exposes: `FrameError` closes with `CloseCode.PROTOCOL` (1002),
`InvalidTextPayload` with `CloseCode.BAD_DATA` (1007), and
`ResourceLimitExceeded` with `CloseCode.LARGE_MESSAGE` (1009). -/
theorem C1_error_close_codes :
    closeCodeFor .FrameError = some CloseCode.PROTOCOL ∧
    closeCodeFor .InvalidTextPayload = some CloseCode.BAD_DATA ∧
    closeCodeFor .ResourceLimitExceeded = some CloseCode.LARGE_MESSAGE := by
  refine ⟨rfl, rfl, rfl⟩

/-- Claim C2 counterexample: 1004 lies in the range 1000–1011 but no member
of the `CloseCode` class has value 1004 (nor 1005 or 1006). -/
theorem C2_counterexample :
    1000 ≤ 1004 ∧ 1004 ≤ 1011 ∧ 1004 ∉ CloseCode.values := by
  decide

/-- Claim C2 (amended): `CloseCode` enumerates exactly the standard close
codes 1000–1003 and 1007–1011; the reserved/unsendable codes 1004, 1005 and
1006 have no member. -/
theorem C2_close_code_range (n : Nat) :
    n ∈ CloseCode.values ↔
      (1000 ≤ n ∧ n ≤ 1011 ∧ n ≠ 1004 ∧ n ≠ 1005 ∧ n ≠ 1006) := by
  simp only [CloseCode.values, CloseCode.NORMAL, CloseCode.GOING_AWAY,
    CloseCode.PROTOCOL, CloseCode.BAD_DATA_TYPE, CloseCode.BAD_DATA,
    CloseCode.POLICY_VIOLATION, CloseCode.LARGE_MESSAGE,
    CloseCode.CLIENT_NEEDS_EXTENSION, CloseCode.UNEXPECTED_CONDITION,
    List.mem_cons, List.not_mem_nil, or_false]
  omega

/-- Claim C4: `LogLevel` is an ordered severity enumeration with strictly
increasing values DEBUG_4 < DEBUG_3 < DEBUG_2 < DEBUG_1 < DEBUG_0 < INFO <
NOTICE < WARNING < ERROR, all nine distinct. -/
theorem C4_loglevel_ordered :
    LogLevel.DEBUG_4 < LogLevel.DEBUG_3 ∧
    LogLevel.DEBUG_3 < LogLevel.DEBUG_2 ∧
    LogLevel.DEBUG_2 < LogLevel.DEBUG_1 ∧
    LogLevel.DEBUG_1 < LogLevel.DEBUG_0 ∧
    LogLevel.DEBUG_0 < LogLevel.INFO ∧
    LogLevel.INFO < LogLevel.NOTICE ∧
    LogLevel.NOTICE < LogLevel.WARNING ∧
    LogLevel.WARNING < LogLevel.ERROR ∧
    LogLevel.values.Nodup := by
  decide

/-- Claim C5: `Server` construction accepts `port`, `write_max_frame_size`,
`read_max_msg_size` and `read_max_num_frames`, while the logging verbosity
is configured by the separate process-wide `set_opts` call and is not a
constructor argument. -/
theorem C5_config_surface :
    "port" ∈ serverConstructorKwargs ∧
    "write_max_frame_size" ∈ serverConstructorKwargs ∧
    "read_max_msg_size" ∈ serverConstructorKwargs ∧
    "read_max_num_frames" ∈ serverConstructorKwargs ∧
    "loglevel" ∉ serverConstructorKwargs ∧
    "loglevel" ∈ setOptsKwargs := by
  decide

/-- Claim C3 counterexample: `EchoConnection` defines `on_connect` with no
parameter, not `on_connect(handshake_info)`; the claimed signature is not
among the handler methods while the zero-argument one is. -/
theorem C3_counterexample :
    (⟨"on_connect", ["handshake_info"]⟩ : PyMethod) ∉ echoConnectionMethods ∧
    (⟨"on_connect", ([] : List String)⟩ : PyMethod) ∈ echoConnectionMethods := by
  decide

/-- Claim C3 (amended): the handler exposes exactly the lifecycle methods
`on_connect()` (no argument; the handshake information is obtained through
the accessor calls `get_resource`, `get_sub_protocols`, `get_headers`),
`on_message(msg, is_text)` and `on_close(code, reason)`, and sends by
calling `send(msg, is_text)`. -/
theorem C3_handler_surface :
    echoConnectionMethods.map PyMethod.name =
      ["on_connect", "on_message", "on_close"] ∧
    (⟨"on_connect", ([] : List String)⟩ : PyMethod) ∈ echoConnectionMethods ∧
    (⟨"on_message", ["msg", "is_text"]⟩ : PyMethod) ∈ echoConnectionMethods ∧
    (⟨"on_close", ["code", "reason"]⟩ : PyMethod) ∈ echoConnectionMethods ∧
    onConnectAccessorCalls =
      ["get_resource", "get_sub_protocols", "get_headers"] ∧
    sendCall = ⟨"send", ["msg", "is_text"]⟩ := by
  decide

/-- Claim C6: a message whose cumulative size is exactly
`max_message_size` is accepted with the whole payload appended; cumulative
size `max_message_size + 1` is rejected with `ResourceLimitExceeded`; any
accepted append carries the full payload (no silent truncation); and
`ResourceLimitExceeded` designates close code `CloseCode.LARGE_MESSAGE`
(1009). -/
theorem C6_message_size_boundary (L : Limits) (s : AsmState)
    (payload : List Nat)
    (hframe : payload.length ≤ L.max_frame_size)
    (hcount : s.frames + 1 ≤ L.max_frames_per_message) :
    (s.accum.length + payload.length = L.max_message_size →
      asmAppend L s payload = .ok ⟨s.accum ++ payload, s.frames + 1⟩) ∧
    (s.accum.length + payload.length = L.max_message_size + 1 →
      asmAppend L s payload = .error .ResourceLimitExceeded) ∧
    (∀ s2, asmAppend L s payload = .ok s2 →
      s2.accum = s.accum ++ payload) ∧
    closeCodeFor .ResourceLimitExceeded = some CloseCode.LARGE_MESSAGE := by
  have hcf : check_frame L payload.length = true := by
    simp [check_frame, hframe]
  refine ⟨?_, ?_, ?_, rfl⟩
  · intro hsz
    have hmsg : check_message L (s.accum.length + payload.length)
        (s.frames + 1) = .ok := by
      simp only [check_message]
      rw [if_neg (by omega), if_neg (by omega)]
    simp [asmAppend, hcf, hmsg]
  · intro hsz
    have hmsg : check_message L (s.accum.length + payload.length)
        (s.frames + 1) = .MessageTooLarge := by
      simp only [check_message]
      rw [if_pos (by omega)]
    simp [asmAppend, hcf, hmsg]
  · intro s2 hok
    unfold asmAppend at hok
    rw [hcf] at hok
    simp only [Bool.true_eq_false, if_false] at hok
    split at hok
    · injection hok with h
      rw [← h]
    · exact Except.noConfusion hok

/-- Claim C6 witness: with limits `{10, 5, 4}` and three bytes pending, a
two-byte frame reaching exactly the message ceiling is accepted in full,
while a three-byte frame one past it is rejected. -/
theorem C6_boundary_witness :
    asmAppend ⟨10, 5, 4⟩ ⟨[1, 2, 3], 1⟩ [4, 5] = .ok ⟨[1, 2, 3, 4, 5], 2⟩ ∧
    asmAppend ⟨10, 5, 4⟩ ⟨[1, 2, 3], 1⟩ [4, 5, 6] =
      .error .ResourceLimitExceeded := by
  exact ⟨(C6_message_size_boundary ⟨10, 5, 4⟩ ⟨[1, 2, 3], 1⟩ [4, 5]
            (by decide) (by decide)).1 (by decide),
         (C6_message_size_boundary ⟨10, 5, 4⟩ ⟨[1, 2, 3], 1⟩ [4, 5, 6]
            (by decide) (by decide)).2.1 (by decide)⟩

/-- Helper: `negotiate` returns `some s` exactly when `s` is the first
entry of the requested list approved by the policy. -/
theorem negotiate_first_match (req : List String) (policy : String → Bool)
    (s : String) :
    negotiate req policy = some s ↔
      ∃ pre post, req = pre ++ s :: post ∧
        (∀ x ∈ pre, policy x = false) ∧ policy s = true := by
  induction req with
  | nil => simp [negotiate]
  | cons p rest ih =>
    rw [negotiate]
    by_cases hp : policy p = true
    · rw [if_pos hp]
      constructor
      · intro h
        injection h with h
        exact ⟨[], rest, by rw [h]; rfl, by simp, h ▸ hp⟩
      · rintro ⟨pre, post, heq, hpre, hs⟩
        cases pre with
        | nil =>
          simp only [List.nil_append] at heq
          injection heq with h1 h2
          rw [h1]
        | cons a pre2 =>
          have ha : policy a = false := hpre a (List.mem_cons_self a pre2)
          simp only [List.cons_append] at heq
          injection heq with h1 h2
          rw [h1, ha] at hp
          exact Bool.noConfusion hp
    · rw [if_neg hp, ih]
      have hp2 : policy p = false := by
        cases hpol : policy p
        · rfl
        · exact absurd hpol hp
      constructor
      · rintro ⟨pre, post, heq, hpre, hs⟩
        refine ⟨p :: pre, post, by rw [heq, List.cons_append], ?_, hs⟩
        intro x hx
        rcases List.mem_cons.mp hx with h | h
        · rw [h]; exact hp2
        · exact hpre x h
      · rintro ⟨pre, post, heq, hpre, hs⟩
        cases pre with
        | nil =>
          simp only [List.nil_append] at heq
          injection heq with h1 h2
          rw [h1, hs] at hp2
          exact Bool.noConfusion hp2
        | cons a pre2 =>
          simp only [List.cons_append] at heq
          injection heq with h1 h2
          exact ⟨pre2, post, h2,
            fun x hx => hpre x (List.mem_cons_of_mem a hx), hs⟩

/-- Claim C7: sub-protocol negotiation is first-match-wins — the result is
`some s` exactly when `s` is the first requested entry the policy
approves; the scenario `[chat, superchat]` with a policy accepting only
`superchat` negotiates `superchat`, reflected in the accept-response
header; the empty result is valid and means no sub-protocol (no header). -/
theorem C7_subprotocol_first_match :
    (∀ (req : List String) (policy : String → Bool) (s : String),
      negotiate req policy = some s ↔
        ∃ pre post, req = pre ++ s :: post ∧
          (∀ x ∈ pre, policy x = false) ∧ policy s = true) ∧
    negotiate ["chat", "superchat"] (fun p => p == "superchat") =
      some "superchat" ∧
    acceptProtocolHeader
        (negotiate ["chat", "superchat"] (fun p => p == "superchat")) =
      some "Sec-WebSocket-Protocol: superchat" ∧
    (∀ policy : String → Bool, negotiate [] policy = none) ∧
    acceptProtocolHeader none = none := by
  refine ⟨negotiate_first_match, by decide, by decide, fun _ => rfl, rfl⟩

/-- Claim C7 witness: on the concrete request list `[chat, superchat]`
with the policy accepting only `superchat`, the first-match
characterisation instantiates to a concrete split of the list. -/
theorem C7_subprotocol_witness :
    ∃ pre post, (["chat", "superchat"] : List String) =
        pre ++ "superchat" :: post ∧
      (∀ x ∈ pre, (x == "superchat") = false) ∧
      ("superchat" == "superchat") = true :=
  (C7_subprotocol_first_match.1 ["chat", "superchat"]
    (fun p => p == "superchat") "superchat").mp (by decide)

/-- Helper: once `Closed`, the machine absorbs every input and emits
nothing. -/
theorem step_closed (s : MachineState) (i : ConnInput)
    (h : s.tag = .Closed) : step s i = (s, []) := by
  obtain ⟨t, pc⟩ := s
  simp only at h
  subst h
  cases i <;> rfl

/-- Helper: one step from a non-`Closed` state either enters `Closed`
emitting exactly one close event, or stays out of `Closed` emitting none. -/
theorem step_close_count (s : MachineState) (i : ConnInput)
    (h : s.tag ≠ .Closed) :
    (step s i).2.countP isCloseEvent =
      if (step s i).1.tag = .Closed then 1 else 0 := by
  obtain ⟨t, pc⟩ := s
  rcases pc with _ | ⟨c, r⟩ <;> cases t <;> cases i <;>
    simp [step, isCloseEvent] at h ⊢

/-- Helper: a run from a `Closed` state is inert. -/
theorem run_closed (l : List ConnInput) (s : MachineState)
    (h : s.tag = .Closed) : run s l = (s, []) := by
  induction l with
  | nil => rfl
  | cons i rest ih =>
    simp [run, step_closed s i h, ih]

/-- Helper: over any run from a non-`Closed` state, the number of close
events delivered is one exactly when the run ends `Closed`, zero
otherwise. -/
theorem run_close_count (l : List ConnInput) (s : MachineState)
    (h : s.tag ≠ .Closed) :
    (run s l).2.countP isCloseEvent =
      if (run s l).1.tag = .Closed then 1 else 0 := by
  induction l generalizing s with
  | nil => simp [run, h]
  | cons i rest ih =>
    have hstep := step_close_count s i h
    by_cases hc : (step s i).1.tag = .Closed
    · have hrest := run_closed rest (step s i).1 hc
      simp [run, hrest, List.countP_append, hstep, hc]
    · have hrest := ih (step s i).1 hc
      simp [run, List.countP_append, hstep, hrest, hc]

/-- Claim C8: over any input sequence, the collaborator observes exactly
one close event when the connection reaches `Closed` and none before
(never two); a transport drop with no peer close frame received yields the
close event with code 1006; and the received-close scenario delivers the
close event with the peer code and reason (1000, "bye"). -/
theorem C8_one_close_event :
    (∀ inputs : List ConnInput,
      (run initMachine inputs).2.countP isCloseEvent =
        if (run initMachine inputs).1.tag = .Closed then 1 else 0) ∧
    (∀ t : ConnState, ∀ e ∈ (step ⟨t, none⟩ .transportDrop).2,
      e = .closeEvent 1006 "") ∧
    (run initMachine
        [.handshakeOk, .closeFrame 1000 "bye", .closeSent]).2 =
      [.connectEvent, .closeEvent 1000 "bye"] := by
  refine ⟨?_, ?_, by decide⟩
  · intro inputs
    exact run_close_count inputs initMachine (by simp [initMachine])
  · intro t e he
    cases t <;> simp [step] at he <;> exact he

/-- Claim C8 witness: on the concrete input sequence "handshake succeeds,
then the transport drops", the run delivers exactly one close event and
ends `Closed`. -/
theorem C8_one_close_event_witness :
    (run initMachine [.handshakeOk, .transportDrop]).2.countP
        isCloseEvent =
      if (run initMachine [.handshakeOk, .transportDrop]).1.tag = .Closed
      then 1 else 0 :=
  C8_one_close_event.1 [.handshakeOk, .transportDrop]

/-- Claim C9: the report-comparison lines are printed in ascending order
of the absolute duration difference — the sorted list is pairwise ordered
by its key component and is a permutation of the unsorted lines. -/
theorem C9_lines_sorted (ts : List TestDurations) :
    (sortedLines ts).Sorted byKey ∧
    (sortedLines ts).Perm (mkLines ts) :=
  ⟨List.sorted_insertionSort byKey (mkLines ts),
   List.perm_insertionSort byKey (mkLines ts)⟩

/-- Claim C9 witness: on two concrete tests with duration differences 4
and 1, the printed order is sorted by the difference and permutes the
input lines. -/
theorem C9_lines_sorted_witness :
    (sortedLines [⟨"t1", 5, 1⟩, ⟨"t2", 2, 3⟩]).Sorted byKey ∧
    (sortedLines [⟨"t1", 5, 1⟩, ⟨"t2", 2, 3⟩]).Perm
      (mkLines [⟨"t1", 5, 1⟩, ⟨"t2", 2, 3⟩]) :=
  C9_lines_sorted [⟨"t1", 5, 1⟩, ⟨"t2", 2, 3⟩]

/-- Claim C10: invoked with a number of arguments other than exactly two
report filenames (`len(sys.argv) != 3`), the utility prints the usage line
and exits with status 1 with no report file opened. -/
theorem C10_argv_check (argv : List String) (h : argv.length ≠ 3) :
    reportcompareEntry argv = ⟨some 1, [usageLine argv], []⟩ := by
  simp [reportcompareEntry, h]

/-- Claim C10 witness: with only the program name in `argv`, the run
exits with status 1, prints the usage line, and opens no file. -/
theorem C10_argv_check_witness :
    reportcompareEntry ["reportcompare.py"] =
      ⟨some 1, ["usage: reportcompare.py <report1.json> <report2.json>"],
       []⟩ :=
  C10_argv_check ["reportcompare.py"] (by decide)

end Heelhook
